import Mathlib

/-!
Verification of `gap_screener.py` (forex-gap-screener).

The development shallowly embeds the parts of the program the specification
talks about:

* `Bar`, `sort_index`, `locFloat`, `get_friday_close_and_sunday_open` — the
  session boundary locator (lines 45-83 of the source), taken from the point
  where the provider response has already been fetched and normalized to the
  reference timezone.
* `gap_pct`, `noteFor`, `processOne`, `processPairs` — the per-ticker loop of
  `main` (lines 115-130).
* `abs_gap`, `insertGap`, `build_report` — the report builder (lines 85-89).
* `Env`, `SMTP_PORT`, `EMAIL_FROM`, `smtpConfigured`, `deliver` — the
  module-level mail settings (lines 29-34) and the delivery tail of `main`
  (lines 152-171).

Prices are rationals (the program's float arithmetic on prices is exact in the
scenarios the claims exercise); timestamps are naturals carrying the totally
ordered instant, with the local weekday and hour after conversion to
Europe/Paris stored alongside.
-/

/-- One hourly OHLC bar after normalization of its timestamp to the reference
timezone (Europe/Paris, lines 56-60): `ts` is the instant (an abstract totally
ordered time value), `weekday` and `hour` are the local weekday (pandas
convention: Monday = 0, Friday = 4, Sunday = 6) and the local hour of that
instant, and `Open` / `Close` are the bar's prices (the dataframe columns
"Open" and "Close"; the other OHLC columns are unused by the program). -/
structure Bar where
  ts : Nat
  weekday : Nat
  hour : Nat
  Open : ℚ
  Close : ℚ
deriving DecidableEq

/-- The quadruple returned by `get_friday_close_and_sunday_open`:
(friday_time, friday_close, sunday_time, sunday_open), each possibly `None`. -/
structure SessionPair where
  friday_time : Option Nat
  friday_close : Option ℚ
  sunday_time : Option Nat
  sunday_open : Option ℚ
deriving DecidableEq

/-- Insert a bar into a list sorted ascending by timestamp, before any
later-inserted bar with an equal timestamp. -/
def insertTs (b : Bar) : List Bar → List Bar
  | [] => [b]
  | c :: cs => if b.ts ≤ c.ts then b :: c :: cs else c :: insertTs b cs

/-- `df.sort_index()` (line 61): sort the bars ascending by timestamp (stable;
every subsequent selection in the locator — filters, `.max()`, `.min()`,
`.loc` label lookups — is invariant under the bar order, so the sort only
fixes the presentation order). -/
def sort_index : List Bar → List Bar
  | [] => []
  | b :: bs => insertTs b (sort_index bs)

/-- `float(df.loc[t, col])` (lines 68, 78, 82): the `.loc` label lookup
returns every row whose index equals `t`; `float` succeeds only when the
selection is a single value.  A duplicated label yields a multi-row Series and
`float` raises `TypeError`; a missing label raises `KeyError` — the latter is
unreachable below because every looked-up label is a `.max()` / `.min()` of
labels that are present.  Both failure modes surface as an exception, modelled
as `Except.error`. -/
def locFloat (df : List Bar) (t : Nat) (col : Bar → ℚ) : Except String ℚ :=
  match df.filter (fun b => b.ts == t) with
  | [b] => Except.ok (col b)
  | _ => Except.error "cannot convert the series to float"

/-- Lines 52-83 of the source, starting from the fetched provider response
(`df0`, already expressed in the reference timezone as `Bar` values): the
empty-response check, `sort_index`, the Friday filter with its `.max()`
selection and `Close` lookup, and the Sunday `hour >= 22` filter with its
`.min()` selection, `Open` lookup, and any-Sunday fallback.  The source's
`"Open" in df.columns` guard always takes the `Open` branch here (the model's
bars always carry an `Open` column).  An exception escaping the lookup is an
`Except.error`, caught by the caller's `try`/`except`. -/
def get_friday_close_and_sunday_open (df0 : List Bar) : Except String SessionPair :=
  if df0.isEmpty then Except.ok ⟨none, none, none, none⟩ else
  let df := sort_index df0
  let friday_rows := df.filter (fun b => b.weekday == 4)
  match (friday_rows.map Bar.ts).max? with
  | none => Except.ok ⟨none, none, none, none⟩
  | some friday_time =>
    match locFloat friday_rows friday_time Bar.Close with
    | Except.error e => Except.error e
    | Except.ok friday_close =>
      let sunday_candidates := df.filter (fun b => b.weekday == 6 && decide (22 ≤ b.hour))
      match (sunday_candidates.map Bar.ts).min? with
      | none =>
        let sunday_rows := df.filter (fun b => b.weekday == 6)
        match (sunday_rows.map Bar.ts).min? with
        | none => Except.ok ⟨some friday_time, some friday_close, none, none⟩
        | some sunday_time =>
          match locFloat df sunday_time Bar.Open with
          | Except.error e => Except.error e
          | Except.ok sunday_open =>
            Except.ok ⟨some friday_time, some friday_close, some sunday_time, some sunday_open⟩
      | some sunday_time =>
        match locFloat df sunday_time Bar.Open with
        | Except.error e => Except.error e
        | Except.ok sunday_open =>
          Except.ok ⟨some friday_time, some friday_close, some sunday_time, some sunday_open⟩

/-- Lines 124-126 of `main`: the gap is computed only when both values are
floats (i.e. present — the locator returns `float(...)` or `None`) and the
Friday close is nonzero; otherwise `gap_pct` stays `None`. -/
def gap_pct (f_close s_open : Option ℚ) : Option ℚ :=
  match f_close, s_open with
  | some fc, some so => if fc ≠ 0 then some ((so - fc) / fc * 100) else none
  | _, _ => none

/-- Lines 119-123 and the `note or None` of line 127: `note` starts empty, is
set to "no friday data" when the Friday close is `None`, then — by a second
independent `if`, not an `elif` — set to "no sunday open" when the Sunday open
is `None`; an empty note is stored as `None`. -/
def noteFor (f_close s_open : Option ℚ) : Option String :=
  let n0 := ""
  let n1 := if f_close = none then "no friday data" else n0
  let n2 := if s_open = none then "no sunday open" else n1
  if n2 = "" then none else some n2

/-- One row of the report: the tuple appended at lines 127 and 130 (the
source stringifies present timestamps for display; the model keeps the time
values, which preserves presence/absence). -/
structure Row where
  pair : String
  friday_time : Option Nat
  friday_close : Option ℚ
  sunday_time : Option Nat
  sunday_open : Option ℚ
  gap_pct : Option ℚ
  note : Option String
deriving DecidableEq

/-- The body of the per-ticker loop (lines 116-130).  `g` is the call
`get_friday_close_and_sunday_open(ticker)` made inside the `try` — its fetch
step is the external provider, so the claim theorems quantify over it; an
exception anywhere in the `try` block is `Except.error` and lands in the
`except` branch, which records `"error: <message>"` with every other field
`None`. -/
def processOne (g : String → Except String SessionPair) (ticker : String) : Row :=
  match g ticker with
  | Except.ok p =>
      { pair := ticker, friday_time := p.friday_time, friday_close := p.friday_close,
        sunday_time := p.sunday_time, sunday_open := p.sunday_open,
        gap_pct := gap_pct p.friday_close p.sunday_open,
        note := noteFor p.friday_close p.sunday_open }
  | Except.error e =>
      { pair := ticker, friday_time := none, friday_close := none, sunday_time := none,
        sunday_open := none, gap_pct := none, note := some ("error: " ++ e) }

/-- The whole loop of lines 115-130: one row per requested ticker, in input
order, duplicates included. -/
def processPairs (g : String → Except String SessionPair) (pairs : List String) : List Row :=
  pairs.map (processOne g)

/-- The helper column of line 87, `df["gap_pct"].abs().fillna(0)`: the
absolute value of the gap, with an absent gap counted as 0. -/
def abs_gap (r : Row) : ℚ :=
  match r.gap_pct with
  | some g => if g < 0 then -g else g
  | none => 0

/-- Insert a row into a list sorted descending by `abs_gap`, before any row of
equal key that was inserted later. -/
def insertGap (r : Row) : List Row → List Row
  | [] => [r]
  | s :: ss => if abs_gap s ≤ abs_gap r then r :: s :: ss else s :: insertGap r ss

/-- `build_report` (lines 85-89): sort the rows by descending `abs_gap` and
drop the helper column (the model never stores it).  `sort_values` is modelled
as a stable descending sort; the model is exact whenever the `abs_gap` keys
are pairwise distinct, where every correct descending sort agrees.  On tied
keys the source's `sort_values` uses its default kind `'quicksort'`, whose tie
order numpy does not specify — see the claim about sort stability. -/
def build_report : List Row → List Row
  | [] => []
  | r :: rs => insertGap r (build_report rs)

/-- The relevant slice of `os.environ` (lines 29-34): the six mail variables,
`none` meaning unset. -/
structure Env where
  host : Option String
  port : Option String
  user : Option String
  password : Option String
  email_from : Option String
  email_to : Option String
deriving DecidableEq

/-- Python truthiness of an optional string: `None` and `""` are falsy. -/
def pyTruthy : Option String → Bool
  | none => false
  | some s => !s.isEmpty

/-- Python truthiness of an optional int: `None` and `0` are falsy. -/
def pyTruthyInt : Option Int → Bool
  | none => false
  | some n => n != 0

/-- `int(s)` on the numeral strings used here; `none` where Python's `int`
would raise `ValueError` (no claim exercises that case, which would abort the
program during module initialisation). -/
def pyInt (s : String) : Option Int := s.toInt?

/-- Line 29: `SMTP_HOST = os.environ.get("SMTP_HOST")`. -/
def SMTP_HOST (e : Env) : Option String := e.host

/-- Line 30: `int(os.environ.get("SMTP_PORT", "587")) if os.environ.get("SMTP_PORT") else None`.
The conditional makes the setting `None` whenever the variable is unset or
empty; the `"587"` default inside `get` is evaluated only when the variable is
truthy, so it can never be the result. -/
def SMTP_PORT (e : Env) : Option Int :=
  if pyTruthy e.port then pyInt (e.port.getD "587") else none

/-- Line 31: `SMTP_USER = os.environ.get("SMTP_USER")`. -/
def SMTP_USER (e : Env) : Option String := e.user

/-- Line 32: `SMTP_PASS = os.environ.get("SMTP_PASS")`. -/
def SMTP_PASS (e : Env) : Option String := e.password

/-- Line 33: `EMAIL_FROM = os.environ.get("EMAIL_FROM") or os.environ.get("SMTP_USER")`
(Python `or`: the left operand when truthy, otherwise the right one). -/
def EMAIL_FROM (e : Env) : Option String :=
  if pyTruthy e.email_from then e.email_from else e.user

/-- Line 34: `EMAIL_TO = os.environ.get("EMAIL_TO")`. -/
def EMAIL_TO (e : Env) : Option String := e.email_to

/-- Line 162: `all([SMTP_HOST, SMTP_PORT, SMTP_USER, SMTP_PASS, EMAIL_FROM, EMAIL_TO])`
under Python truthiness. -/
def smtpConfigured (e : Env) : Bool :=
  pyTruthy (SMTP_HOST e) && pyTruthyInt (SMTP_PORT e) && pyTruthy (SMTP_USER e) &&
  pyTruthy (SMTP_PASS e) && pyTruthy (EMAIL_FROM e) && pyTruthy (EMAIL_TO e)

/-- The externally observable effects of the delivery tail of `main`
(lines 152-171): the exit code, whether the report body was printed to
standard output, whether `send_email` was invoked, and whether the dry-run
CSV file was written. -/
structure Delivery where
  exitCode : Nat
  printedBody : Bool
  sentEmail : Bool
  wroteCsv : Bool
deriving DecidableEq

/-- Lines 152-171: dry-run writes the CSV, prints the body and returns 0
without touching the mail transport; live mode first checks the six settings
and, when any is falsy, prints the body and returns 2 without sending;
otherwise it sends the email (and does not print the body — the success path
only logs). -/
def deliver (dryRun : Bool) (e : Env) : Delivery :=
  if dryRun then { exitCode := 0, printedBody := true, sentEmail := false, wroteCsv := true }
  else if !(smtpConfigured e) then
    { exitCode := 2, printedBody := true, sentEmail := false, wroteCsv := false }
  else { exitCode := 0, printedBody := false, sentEmail := true, wroteCsv := false }

/-- A report row carrying only a ticker and a gap value, for the ordering
examples. -/
def mkRow (p : String) (g : Option ℚ) : Row :=
  { pair := p, friday_time := none, friday_close := none, sunday_time := none,
    sunday_open := none, gap_pct := g, note := none }

/-- `insertGap` only rearranges: inserting is a permutation of consing. -/
theorem insertGap_perm (r : Row) (l : List Row) : (insertGap r l).Perm (r :: l) := by
  induction l with
  | nil => exact List.Perm.refl _
  | cons s ss ih =>
      unfold insertGap
      by_cases h : abs_gap s ≤ abs_gap r
      · simp only [h, if_pos]
        exact List.Perm.refl _
      · simp only [h, if_neg, not_false_iff]
        exact (ih.cons s).trans (List.Perm.swap r s ss)

/-- `build_report` permutes its input rows. -/
theorem build_report_perm (l : List Row) : (build_report l).Perm l := by
  induction l with
  | nil => exact List.Perm.refl _
  | cons r rs ih => exact (insertGap_perm r _).trans (ih.cons r)

/-- Claim C1 — what the code actually does on the failing input: a ticker with
an empty provider response gets the all-absent session pair, and its note ends
up `"no sunday open"`, not the specified `"no friday data"`: an absent Friday
close always comes with an absent Sunday open, so the second `if` of
lines 120-123 (not an `elif`) unconditionally overwrites the first
assignment. -/
theorem emptySeries_note_eval :
    (processOne (fun _ => get_friday_close_and_sunday_open []) "EURUSD=X").note
      = some "no sunday open" := by rfl

/-- Claim C2 — the ordering example of the claim, on the embedded report
builder: gap magnitudes [2, absent, -5, 1] come out [-5, 2, 1, absent].  The
four keys are pairwise distinct, so every correct descending sort — the
model's stable one and the source's quicksort alike — produces this order. -/
theorem report_example_order_eval :
    (build_report
        [mkRow "A" (some 2), mkRow "B" none, mkRow "C" (some (-5)), mkRow "D" (some 1)]).map
      Row.gap_pct = [some (-5), some 2, some 1, none] := by decide

/-- Claim C3: the gap is absent when either price is absent and when the
Friday close is zero (no division error), and otherwise equals
`(sunday_open - friday_close) / friday_close * 100` with its sign. -/
theorem gapPct_spec :
    (∀ so, gap_pct none so = none)
  ∧ (∀ fc, gap_pct fc none = none)
  ∧ (∀ so, gap_pct (some 0) (some so) = none)
  ∧ (∀ fc so, fc ≠ 0 → gap_pct (some fc) (some so) = some ((so - fc) / fc * 100)) := by
  refine ⟨fun so => rfl, fun fc => ?_, fun so => by simp [gap_pct], fun fc so h => by simp [gap_pct, h]⟩
  cases fc <;> rfl

/-- Witness for C3 at the spec's round-trip example: friday_close = 100 and
sunday_open = 101.5 give gap +1.5. -/
theorem gapPct_spec_witness :
    ((100 : ℚ) ≠ 0) ∧ gap_pct (some 100) (some (203 / 2)) = some (3 / 2) := by
  refine ⟨by norm_num, ?_⟩
  have h := gapPct_spec.2.2.2 100 (203 / 2) (by norm_num)
  rw [h]
  norm_num

/-- Claim C6: the run produces exactly one row per requested ticker in input
order (duplicates allowed); a ticker whose fetch-or-locate call raises gets
the `"error: <message>"` row with every other field absent; and each row
depends only on its own ticker's outcome, so one ticker's failure cannot
affect any other row (isolation). -/
theorem process_isolation_order (g h : String → Except String SessionPair)
    (pairs : List String) :
    (processPairs g pairs).length = pairs.length
  ∧ (∀ i : Nat, (processPairs g pairs)[i]? = (pairs[i]?).map (processOne g))
  ∧ (∀ t e, g t = Except.error e →
      processOne g t = ⟨t, none, none, none, none, none, some ("error: " ++ e)⟩)
  ∧ (∀ (i : Nat) (t : String), pairs[i]? = some t → g t = h t →
      (processPairs g pairs)[i]? = (processPairs h pairs)[i]?) := by
  refine ⟨List.length_map _ _, fun i => List.getElem?_map _ _ _, fun t e hge => ?_,
    fun i t hit hgh => ?_⟩
  · simp [processOne, hge]
  · have h1 : (processPairs g pairs)[i]? = some (processOne g t) := by
      rw [processPairs, List.getElem?_map, hit]; rfl
    have h2 : (processPairs h pairs)[i]? = some (processOne h t) := by
      rw [processPairs, List.getElem?_map, hit]; rfl
    rw [h1, h2, processOne, processOne, hgh]

/-- Witness for C6: a raising ticker produces exactly the error row. -/
theorem process_isolation_order_witness :
    processOne (fun _ => Except.error "boom") "BADTICKER"
      = ⟨"BADTICKER", none, none, none, none, none, some ("error: " ++ "boom")⟩ :=
  (process_isolation_order (fun _ => Except.error "boom") (fun _ => Except.error "boom")
    []).2.2.1 "BADTICKER" "boom" rfl

/-- Claim C8: dry-run never invokes the mail transport, and live mode with any
one of the six derived mail settings unset exits with code 2, still prints the
report body, and neither sends nor writes the dry-run CSV. -/
theorem deliver_missing_settings (e : Env) :
    (deliver true e).sentEmail = false
  ∧ ((SMTP_HOST e = none ∨ SMTP_PORT e = none ∨ SMTP_USER e = none ∨
      SMTP_PASS e = none ∨ EMAIL_FROM e = none ∨ EMAIL_TO e = none) →
      deliver false e = ⟨2, true, false, false⟩) := by
  refine ⟨rfl, fun hmiss => ?_⟩
  have hc : smtpConfigured e = false := by
    rcases hmiss with h | h | h | h | h | h <;>
      simp [smtpConfigured, h, pyTruthy, pyTruthyInt]
  simp [deliver, hc]

/-- Witness for C8: every variable set except the recipient list. -/
theorem deliver_missing_settings_witness :
    deliver false ⟨some "smtp.example.com", some "587", some "u", some "p", some "f@x", none⟩
      = ⟨2, true, false, false⟩ :=
  (deliver_missing_settings _).2 (Or.inr (Or.inr (Or.inr (Or.inr (Or.inr rfl)))))

/-- Claim C9 — counterexample: with `SMTP_PORT` unset and every other mail
variable set, the derived port is `None`, not 587, and live mode exits with
code 2 without attempting to send — contradicting the claimed default. -/
theorem port_unset_counterexample :
    SMTP_PORT ⟨some "smtp.example.com", none, some "user", some "pw",
        some "from@x", some "to@x"⟩ = none
  ∧ deliver false ⟨some "smtp.example.com", none, some "user", some "pw",
        some "from@x", some "to@x"⟩ = ⟨2, true, false, false⟩ := by
  exact ⟨rfl, rfl⟩

/-- Claim C9 (amended): the port never defaults — when the `SMTP_PORT`
variable is unset the derived setting is absent and live mode exits with
code 2 regardless of the other five settings; the sender address does fall
back to the username when `EMAIL_FROM` is unset. -/
theorem port_no_default (e : Env) :
    (e.port = none → SMTP_PORT e = none)
  ∧ (e.port = none → deliver false e = ⟨2, true, false, false⟩)
  ∧ (e.email_from = none → EMAIL_FROM e = e.user) := by
  refine ⟨fun hp => by simp [SMTP_PORT, hp, pyTruthy], fun hp => ?_,
    fun hf => by simp [EMAIL_FROM, hf, pyTruthy]⟩
  have hport : SMTP_PORT e = none := by simp [SMTP_PORT, hp, pyTruthy]
  have hc : smtpConfigured e = false := by simp [smtpConfigured, hport, pyTruthyInt]
  simp [deliver, hc]

/-- Witness for the amended C9: port unset, everything else set. -/
theorem port_no_default_witness :
    SMTP_PORT ⟨some "smtp.example.com", none, some "u", some "p", some "f@x", some "t@x"⟩ = none
  ∧ deliver false ⟨some "smtp.example.com", none, some "u", some "p", some "f@x", some "t@x"⟩
      = ⟨2, true, false, false⟩ :=
  ⟨(port_no_default _).1 rfl, (port_no_default _).2.1 rfl⟩

/-- Claim C10: whenever a report row carries a gap value, the row also carries
a present, nonzero Friday close and a present Sunday open, and the gap is
exactly the computed percentage. -/
theorem row_gap_invariant (g : String → Except String SessionPair)
    (pairs : List String) (r : Row) (hr : r ∈ build_report (processPairs g pairs))
    (v : ℚ) (hv : r.gap_pct = some v) :
    ∃ fc so, r.friday_close = some fc ∧ fc ≠ 0 ∧ r.sunday_open = some so
      ∧ v = (so - fc) / fc * 100 := by
  have hr' : r ∈ processPairs g pairs := ((build_report_perm _).mem_iff).1 hr
  obtain ⟨t, -, rfl⟩ := List.mem_map.1 hr'
  cases hgt : g t with
  | error e =>
      rw [processOne, hgt] at hv
      simp at hv
  | ok p =>
      rw [processOne, hgt] at hv ⊢
      simp only at hv ⊢
      cases hfc : p.friday_close with
      | none => rw [hfc] at hv; simp [gap_pct] at hv
      | some fc =>
          cases hso : p.sunday_open with
          | none => rw [hfc, hso] at hv; simp [gap_pct] at hv
          | some so =>
              rw [hfc, hso] at hv
              by_cases hz : fc = 0
              · rw [gap_pct, hz] at hv; simp at hv
              · refine ⟨fc, so, rfl, hz, rfl, ?_⟩
                rw [gap_pct] at hv
                simp only [hz, if_pos, ne_eq, not_false_eq_true, Option.some.injEq] at hv
                exact hv.symm

/-- Witness for C10: a single ticker whose located pair gives gap = 1. -/
theorem row_gap_invariant_witness :
    ∃ fc so,
      (processOne (fun _ => Except.ok ⟨some 1, some 100, some 2, some 101⟩)
          "EURUSD=X").friday_close = some fc
      ∧ fc ≠ 0
      ∧ (processOne (fun _ => Except.ok ⟨some 1, some 100, some 2, some 101⟩)
          "EURUSD=X").sunday_open = some so
      ∧ (1 : ℚ) = (so - fc) / fc * 100 := by
  refine row_gap_invariant (fun _ => Except.ok ⟨some 1, some 100, some 2, some 101⟩)
    ["EURUSD=X"] _ ?_ 1 ?_
  · simp [processPairs, build_report, insertGap]
  · show gap_pct (some 100) (some 101) = some 1
    rw [gap_pct]
    norm_num

/-- `insertTs` only rearranges: inserting is a permutation of consing. -/
theorem insertTs_perm (b : Bar) (l : List Bar) : (insertTs b l).Perm (b :: l) := by
  induction l with
  | nil => exact List.Perm.refl _
  | cons c cs ih =>
      unfold insertTs
      by_cases h : b.ts ≤ c.ts
      · simp only [h, if_pos]
        exact List.Perm.refl _
      · simp only [h, if_neg, not_false_iff]
        exact (ih.cons c).trans (List.Perm.swap b c cs)

/-- `sort_index` permutes the bars. -/
theorem sort_index_perm (l : List Bar) : (sort_index l).Perm l := by
  induction l with
  | nil => exact List.Perm.refl _
  | cons b bs ih => exact (insertTs_perm b _).trans (ih.cons b)

/-- `List.max?` on naturals returns exactly the greatest member. -/
theorem natMax?_eq_some_iff {xs : List Nat} {a : Nat} :
    xs.max? = some a ↔ a ∈ xs ∧ ∀ b ∈ xs, b ≤ a :=
  List.max?_eq_some_iff Nat.le_refl max_choice (fun _ _ _ => max_le_iff)

/-- `List.min?` on naturals returns exactly the least member. -/
theorem natMin?_eq_some_iff {xs : List Nat} {a : Nat} :
    xs.min? = some a ↔ a ∈ xs ∧ ∀ b ∈ xs, a ≤ b :=
  List.min?_eq_some_iff Nat.le_refl min_choice (fun _ _ _ => le_min_iff)

/-- In a list of bars with pairwise distinct timestamps, filtering by the
timestamp of a member returns exactly that member: the `.loc` label lookup is
a single row. -/
theorem filter_ts_eq_of_nodup :
    ∀ {l : List Bar}, (l.map Bar.ts).Nodup → ∀ {b : Bar}, b ∈ l →
      l.filter (fun x => x.ts == b.ts) = [b] := by
  intro l
  induction l with
  | nil => intro _ b hb; exact absurd hb (List.not_mem_nil b)
  | cons c cs ih =>
      intro hnd b hb
      rw [List.map_cons, List.nodup_cons] at hnd
      rcases List.mem_cons.1 hb with rfl | hbcs
      · rw [List.filter_cons_of_pos (by simp)]
        have htail : cs.filter (fun x => x.ts == b.ts) = [] := by
          rw [List.filter_eq_nil_iff]
          intro a ha hq
          have haeq : a.ts = b.ts := by simpa using hq
          exact hnd.1 (haeq ▸ List.mem_map_of_mem Bar.ts ha)
        rw [htail]
      · have hne : (c.ts == b.ts) = false := by
          refine beq_eq_false_iff_ne.2 fun he => ?_
          exact hnd.1 (he ▸ List.mem_map_of_mem Bar.ts hbcs)
        rw [List.filter_cons_of_neg (by simp [hne])]
        exact ih hnd.2 hbcs

/-- Claim C4: a non-empty normalized series containing no Friday bar yields
the all-absent session pair, even when Sunday bars are present — the
asymmetric short-circuit of lines 64-66. -/
theorem locate_noFriday_allAbsent (df0 : List Bar) (hne : df0 ≠ [])
    (hnf : ∀ b ∈ df0, b.weekday ≠ 4) :
    get_friday_close_and_sunday_open df0 = Except.ok ⟨none, none, none, none⟩ := by
  have hie : df0.isEmpty = false := by
    cases df0 with
    | nil => exact absurd rfl hne
    | cons a l => rfl
  have hkeep : (sort_index df0).filter (fun b => b.weekday == 4) = [] := by
    rw [List.filter_eq_nil_iff]
    intro b hb
    have hbm : b ∈ df0 := ((sort_index_perm df0).mem_iff).1 hb
    simpa using hnf b hbm
  rw [get_friday_close_and_sunday_open]
  simp [hie, hkeep]

/-- Witness for C4: a series holding a lone Sunday-evening bar still comes
back all-absent. -/
theorem locate_noFriday_allAbsent_witness :
    get_friday_close_and_sunday_open [⟨30, 6, 22, 5, 6⟩]
      = Except.ok ⟨none, none, none, none⟩ :=
  locate_noFriday_allAbsent [⟨30, 6, 22, 5, 6⟩] (by decide) (by decide)

/-- Claim C5: on a series with pairwise distinct timestamps containing a
Friday bar, the locator returns the close of the Friday bar with the maximum
timestamp and — taking the three Sunday cases in turn — the open of the
minimum-timestamp Sunday bar with local hour ≥ 22 when one exists, else the
open of the minimum-timestamp Sunday bar of any hour, else absent Sunday
fields. -/
theorem locate_selects_boundaries (df0 : List Bar) (bf : Bar)
    (hnd : (df0.map Bar.ts).Nodup) (hbf : bf ∈ df0) (hbf4 : bf.weekday = 4)
    (hmaxf : ∀ b ∈ df0, b.weekday = 4 → b.ts ≤ bf.ts) :
    (∀ bs ∈ df0, bs.weekday = 6 → 22 ≤ bs.hour →
        (∀ b ∈ df0, b.weekday = 6 → 22 ≤ b.hour → bs.ts ≤ b.ts) →
        get_friday_close_and_sunday_open df0
          = Except.ok ⟨some bf.ts, some bf.Close, some bs.ts, some bs.Open⟩)
  ∧ ((∀ b ∈ df0, ¬(b.weekday = 6 ∧ 22 ≤ b.hour)) →
      ∀ bs ∈ df0, bs.weekday = 6 →
        (∀ b ∈ df0, b.weekday = 6 → bs.ts ≤ b.ts) →
        get_friday_close_and_sunday_open df0
          = Except.ok ⟨some bf.ts, some bf.Close, some bs.ts, some bs.Open⟩)
  ∧ ((∀ b ∈ df0, b.weekday ≠ 6) →
      get_friday_close_and_sunday_open df0
        = Except.ok ⟨some bf.ts, some bf.Close, none, none⟩) := by
  have hperm : (sort_index df0).Perm df0 := sort_index_perm df0
  have hie : df0.isEmpty = false := by
    cases df0 with
    | nil => exact absurd hbf (List.not_mem_nil bf)
    | cons a l => rfl
  have hndS : ((sort_index df0).map Bar.ts).Nodup :=
    ((hperm.map Bar.ts).nodup_iff).2 hnd
  have hbfS : bf ∈ sort_index df0 := hperm.mem_iff.2 hbf
  have hbfF : bf ∈ (sort_index df0).filter (fun b => b.weekday == 4) :=
    List.mem_filter.2 ⟨hbfS, by simp [hbf4]⟩
  have hfmax :
      (((sort_index df0).filter (fun b => b.weekday == 4)).map Bar.ts).max?
        = some bf.ts := by
    refine natMax?_eq_some_iff.2 ⟨List.mem_map_of_mem Bar.ts hbfF, ?_⟩
    intro x hx
    obtain ⟨b, hbmem, rfl⟩ := List.mem_map.1 hx
    obtain ⟨hbS, hb4⟩ := List.mem_filter.1 hbmem
    exact hmaxf b (hperm.mem_iff.1 hbS) (by simpa using hb4)
  have hfr_nodup :
      ((((sort_index df0).filter (fun b => b.weekday == 4))).map Bar.ts).Nodup :=
    List.Nodup.sublist (List.Sublist.map Bar.ts (List.filter_sublist _)) hndS
  have hlocF :
      locFloat ((sort_index df0).filter (fun b => b.weekday == 4)) bf.ts Bar.Close
        = Except.ok bf.Close := by
    unfold locFloat
    rw [filter_ts_eq_of_nodup hfr_nodup hbfF]
  refine ⟨?_, ?_, ?_⟩
  · intro bs hbs hbs6 hbsh hminS
    have hbsS : bs ∈ sort_index df0 := hperm.mem_iff.2 hbs
    have hbsC :
        bs ∈ (sort_index df0).filter (fun b => b.weekday == 6 && decide (22 ≤ b.hour)) :=
      List.mem_filter.2 ⟨hbsS, by simp [hbs6, hbsh]⟩
    have hsmin :
        (((sort_index df0).filter
            (fun b => b.weekday == 6 && decide (22 ≤ b.hour))).map Bar.ts).min?
          = some bs.ts := by
      refine natMin?_eq_some_iff.2 ⟨List.mem_map_of_mem Bar.ts hbsC, ?_⟩
      intro x hx
      obtain ⟨b, hbmem, rfl⟩ := List.mem_map.1 hx
      obtain ⟨hbS, hb6⟩ := List.mem_filter.1 hbmem
      simp only [Bool.and_eq_true, beq_iff_eq, decide_eq_true_eq] at hb6
      exact hminS b (hperm.mem_iff.1 hbS) hb6.1 hb6.2
    have hlocS : locFloat (sort_index df0) bs.ts Bar.Open = Except.ok bs.Open := by
      unfold locFloat
      rw [filter_ts_eq_of_nodup hndS hbsS]
    rw [get_friday_close_and_sunday_open]
    simp only [hie, Bool.false_eq_true, if_false, hfmax, hlocF, hsmin, hlocS]
  · intro hnoq bs hbs hbs6 hminS
    have hbsS : bs ∈ sort_index df0 := hperm.mem_iff.2 hbs
    have hcand :
        (sort_index df0).filter (fun b => b.weekday == 6 && decide (22 ≤ b.hour)) = [] := by
      rw [List.filter_eq_nil_iff]
      intro b hb
      have hbm : b ∈ df0 := hperm.mem_iff.1 hb
      have hb' := hnoq b hbm
      simp only [Bool.and_eq_true, beq_iff_eq, decide_eq_true_eq]
      tauto
    have hbsR : bs ∈ (sort_index df0).filter (fun b => b.weekday == 6) :=
      List.mem_filter.2 ⟨hbsS, by simp [hbs6]⟩
    have hsmin :
        (((sort_index df0).filter (fun b => b.weekday == 6)).map Bar.ts).min?
          = some bs.ts := by
      refine natMin?_eq_some_iff.2 ⟨List.mem_map_of_mem Bar.ts hbsR, ?_⟩
      intro x hx
      obtain ⟨b, hbmem, rfl⟩ := List.mem_map.1 hx
      obtain ⟨hbS, hb6⟩ := List.mem_filter.1 hbmem
      exact hminS b (hperm.mem_iff.1 hbS) (by simpa using hb6)
    have hlocS : locFloat (sort_index df0) bs.ts Bar.Open = Except.ok bs.Open := by
      unfold locFloat
      rw [filter_ts_eq_of_nodup hndS hbsS]
    rw [get_friday_close_and_sunday_open]
    simp only [hie, Bool.false_eq_true, if_false, hfmax, hlocF, hcand,
      List.map_nil, List.min?_nil, hsmin, hlocS]
  · intro hnos
    have hcand :
        (sort_index df0).filter (fun b => b.weekday == 6 && decide (22 ≤ b.hour)) = [] := by
      rw [List.filter_eq_nil_iff]
      intro b hb
      have hbm : b ∈ df0 := hperm.mem_iff.1 hb
      have hb' := hnos b hbm
      simp only [Bool.and_eq_true, beq_iff_eq, decide_eq_true_eq]
      tauto
    have hsrows : (sort_index df0).filter (fun b => b.weekday == 6) = [] := by
      rw [List.filter_eq_nil_iff]
      intro b hb
      have hbm : b ∈ df0 := hperm.mem_iff.1 hb
      simpa using hnos b hbm
    rw [get_friday_close_and_sunday_open]
    simp only [hie, Bool.false_eq_true, if_false, hfmax, hlocF, hcand, hsrows,
      List.map_nil, List.min?_nil]

/-- Witness for C5: a Monday bar, two Friday bars and one Sunday 22:00 bar;
the later Friday bar's close (4) and the Sunday bar's open (5) are selected. -/
theorem locate_selects_boundaries_witness :
    get_friday_close_and_sunday_open
        [⟨5, 0, 3, 7, 8⟩, ⟨10, 4, 20, 1, 2⟩, ⟨20, 4, 21, 3, 4⟩, ⟨30, 6, 22, 5, 6⟩]
      = Except.ok ⟨some 20, some 4, some 30, some 5⟩ :=
  (locate_selects_boundaries
      [⟨5, 0, 3, 7, 8⟩, ⟨10, 4, 20, 1, 2⟩, ⟨20, 4, 21, 3, 4⟩, ⟨30, 6, 22, 5, 6⟩]
      ⟨20, 4, 21, 3, 4⟩ (by decide) (by decide) rfl (by decide)).1
    ⟨30, 6, 22, 5, 6⟩ (by decide) rfl (by decide) (by decide)

/-- Claim C7 — counterexample: two Friday bars sharing the maximal timestamp.
The claim predicts a stable last-seen-wins selection, i.e. the successful
result ⟨some 10, some 4, none, none⟩; instead the `.loc` lookup of the
duplicated label returns both rows and `float` raises, so the locator fails
with an exception. -/
theorem locate_dupFridayMax_counterexample :
    get_friday_close_and_sunday_open [⟨10, 4, 20, 1, 2⟩, ⟨10, 4, 21, 3, 4⟩]
        = Except.error "cannot convert the series to float"
  ∧ get_friday_close_and_sunday_open [⟨10, 4, 20, 1, 2⟩, ⟨10, 4, 21, 3, 4⟩]
        ≠ Except.ok ⟨some 10, some 4, none, none⟩ :=
  ⟨rfl, fun h => nomatch h⟩

/-- A `.loc` lookup whose label matches exactly one row converts to that
row's value. -/
theorem locFloat_ok_of_length_one {df : List Bar} {t : Nat} (col : Bar → ℚ)
    (h : (df.filter (fun b => b.ts == t)).length = 1) :
    ∃ q, locFloat df t col = Except.ok q := by
  unfold locFloat
  rcases hl : df.filter (fun b => b.ts == t) with _ | ⟨a, _ | ⟨c, rest⟩⟩
  · rw [hl] at h; simp at h
  · exact ⟨col a, by rw [hl]⟩
  · rw [hl] at h; simp at h

/-- A `.loc` lookup whose label matches two or more rows makes `float`
raise. -/
theorem locFloat_error_of_dup {df : List Bar} {t : Nat} (col : Bar → ℚ)
    (h : 2 ≤ (df.filter (fun b => b.ts == t)).length) :
    locFloat df t col = Except.error "cannot convert the series to float" := by
  unfold locFloat
  rcases hl : df.filter (fun b => b.ts == t) with _ | ⟨a, _ | ⟨c, rest⟩⟩
  · rw [hl] at h; simp at h
  · rw [hl] at h; simp at h
  · rw [hl]

/-- Claim C7 (amended): no tie-break selects a winner at a duplicated
selected label — the label lookup returns every tied row, the float
conversion raises, and the locator reports the error (which the orchestrator
records as the ticker's error note).  First conjunct: two or more bars share
the maximum Friday timestamp.  Second conjunct: the Friday maximum is unique
but two or more bars of the series share the timestamp selected as the
minimum among the hour ≥ 22 Sunday candidates (the Sunday lookup runs on the
whole frame, so the tie is counted over all bars at that timestamp). -/
theorem locate_dupSelected_errors (df0 : List Bar) :
    (∀ t : Nat,
        ((df0.filter (fun b => b.weekday == 4)).map Bar.ts).max? = some t →
        2 ≤ ((df0.filter (fun b => b.weekday == 4)).filter
            (fun b => b.ts == t)).length →
        get_friday_close_and_sunday_open df0
          = Except.error "cannot convert the series to float")
  ∧ (∀ tf tS : Nat,
        ((df0.filter (fun b => b.weekday == 4)).map Bar.ts).max? = some tf →
        ((df0.filter (fun b => b.weekday == 4)).filter
            (fun b => b.ts == tf)).length = 1 →
        ((df0.filter (fun b => b.weekday == 6 && decide (22 ≤ b.hour))).map
            Bar.ts).min? = some tS →
        2 ≤ (df0.filter (fun b => b.ts == tS)).length →
        get_friday_close_and_sunday_open df0
          = Except.error "cannot convert the series to float") := by
  have hperm : (sort_index df0).Perm df0 := sort_index_perm df0
  have hpf : ((sort_index df0).filter (fun b => b.weekday == 4)).Perm
      (df0.filter (fun b => b.weekday == 4)) := hperm.filter _
  constructor
  · intro t hmax hdup
    obtain ⟨hmem, hub⟩ := natMax?_eq_some_iff.1 hmax
    obtain ⟨b0, hb0, -⟩ := List.mem_map.1 hmem
    have hie : df0.isEmpty = false := by
      cases df0 with
      | nil => exact absurd (List.mem_filter.1 hb0).1 (List.not_mem_nil b0)
      | cons a l => rfl
    have hfmax :
        (((sort_index df0).filter (fun b => b.weekday == 4)).map Bar.ts).max?
          = some t := by
      refine natMax?_eq_some_iff.2 ⟨((hpf.map Bar.ts).mem_iff).2 hmem, ?_⟩
      intro x hx
      exact hub x (((hpf.map Bar.ts).mem_iff).1 hx)
    have hlen : 2 ≤ (((sort_index df0).filter (fun b => b.weekday == 4)).filter
        (fun b => b.ts == t)).length := by
      rw [(hpf.filter _).length_eq]
      exact hdup
    have herr := locFloat_error_of_dup Bar.Close hlen
    rw [get_friday_close_and_sunday_open]
    simp only [hie, Bool.false_eq_true, if_false, hfmax, herr]
  · intro tf tS hfmax0 huniq hsmin0 hdupS
    obtain ⟨hmemf, hubf⟩ := natMax?_eq_some_iff.1 hfmax0
    obtain ⟨b0, hb0, -⟩ := List.mem_map.1 hmemf
    have hie : df0.isEmpty = false := by
      cases df0 with
      | nil => exact absurd (List.mem_filter.1 hb0).1 (List.not_mem_nil b0)
      | cons a l => rfl
    have hfmax :
        (((sort_index df0).filter (fun b => b.weekday == 4)).map Bar.ts).max?
          = some tf := by
      refine natMax?_eq_some_iff.2 ⟨((hpf.map Bar.ts).mem_iff).2 hmemf, ?_⟩
      intro x hx
      exact hubf x (((hpf.map Bar.ts).mem_iff).1 hx)
    have hlen1 : (((sort_index df0).filter (fun b => b.weekday == 4)).filter
        (fun b => b.ts == tf)).length = 1 := by
      rw [(hpf.filter _).length_eq]
      exact huniq
    obtain ⟨q, hq⟩ := locFloat_ok_of_length_one Bar.Close hlen1
    obtain ⟨hmems, hlbs⟩ := natMin?_eq_some_iff.1 hsmin0
    have hps : ((sort_index df0).filter
        (fun b => b.weekday == 6 && decide (22 ≤ b.hour))).Perm
        (df0.filter (fun b => b.weekday == 6 && decide (22 ≤ b.hour))) :=
      hperm.filter _
    have hsmin :
        (((sort_index df0).filter
            (fun b => b.weekday == 6 && decide (22 ≤ b.hour))).map Bar.ts).min?
          = some tS := by
      refine natMin?_eq_some_iff.2 ⟨((hps.map Bar.ts).mem_iff).2 hmems, ?_⟩
      intro x hx
      exact hlbs x (((hps.map Bar.ts).mem_iff).1 hx)
    have hdupS' : 2 ≤ ((sort_index df0).filter (fun b => b.ts == tS)).length := by
      rw [(hperm.filter _).length_eq]
      exact hdupS
    have herrS := @locFloat_error_of_dup (sort_index df0) tS Bar.Open hdupS'
    rw [get_friday_close_and_sunday_open]
    simp only [hie, Bool.false_eq_true, if_false, hfmax, hq, hsmin, herrS]

/-- Witness for the amended C7: a duplicated maximal Friday timestamp (10)
makes the locator fail, and so does a duplicated minimum qualifying Sunday
timestamp (30) under a unique Friday maximum. -/
theorem locate_dupSelected_errors_witness :
    get_friday_close_and_sunday_open
        [⟨10, 4, 20, 1, 2⟩, ⟨10, 4, 21, 3, 4⟩, ⟨30, 6, 23, 5, 6⟩]
      = Except.error "cannot convert the series to float"
  ∧ get_friday_close_and_sunday_open
        [⟨10, 4, 20, 1, 2⟩, ⟨30, 6, 22, 5, 6⟩, ⟨30, 6, 22, 7, 8⟩]
      = Except.error "cannot convert the series to float" :=
  ⟨(locate_dupSelected_errors
      [⟨10, 4, 20, 1, 2⟩, ⟨10, 4, 21, 3, 4⟩, ⟨30, 6, 23, 5, 6⟩]).1
      10 (by decide) (by decide),
   (locate_dupSelected_errors
      [⟨10, 4, 20, 1, 2⟩, ⟨30, 6, 22, 5, 6⟩, ⟨30, 6, 22, 7, 8⟩]).2
      10 30 (by decide) (by decide) (by decide) (by decide)⟩
